import Mathlib

/-!
Shallow embedding of the uniz-notification-service worker (src/src/index.ts)
and proofs about its behaviour.

Conventions used throughout:
* JS numbers are modelled as rationals (`ℚ`); all numeric values appearing in
  the verified claims are exactly representable, so the rational model agrees
  with IEEE double arithmetic on them.
* Fallible JS code is modelled with `Except String` (the error payload is the
  message), and effectful code additionally returns an ordered event trace.
* `Number.prototype.toFixed` is modelled by `jsToFixed`, following the
  ECMAScript algorithm for finite arguments (round to nearest, ties away from
  zero on the magnitude).
-/

namespace UnizNotification

/-- Left-pad a digit string with zeros up to width `f`
(used to render the fractional part of `toFixed`). -/
def padZeros (f : Nat) (s : String) : String :=
  String.mk (List.replicate (f - s.length) '0') ++ s

/-- Render a non-negative integer `n` that stands for a number scaled by
`10^f` as a decimal string with `f` fractional digits. -/
def jsToFixedN (f n : Nat) : String :=
  if f = 0 then toString n
  else toString (n / 10 ^ f) ++ "." ++ padZeros f (toString (n % 10 ^ f))

/-- Model of `Number.prototype.toFixed(f)` for finite rational values:
pick the integer minimising the distance of `n / 10^f` to the magnitude
of the argument, ties towards the larger `n` (the ECMAScript rule), and
render with `f` fractional digits, prefixing a sign for negative arguments. -/
def jsToFixed (f : Nat) (q : ℚ) : String :=
  (if q < 0 then "-" else "") ++
    jsToFixedN f (⌊(if q < 0 then -q else q) * (10 : ℚ) ^ f + 1 / 2⌋.toNat)

/-- `g.subject` of a grade / attendance entry (index.ts payload shape). -/
structure Subject where
  name : String
  code : String
  credits : ℚ
deriving DecidableEq

/-- One element of `grades` in a RESULTS payload: `{ subject, grade }`
(`grade` is the grade point; `Number(...)` coercions in the source are the
identity in this model because the fields are already numbers). -/
structure GradeEntry where
  subject : Subject
  grade : ℚ
deriving DecidableEq

/-- One element of `records` in an ATTENDANCE_REPORT payload. -/
structure AttendanceEntry where
  subject : Subject
  attendedClasses : ℚ
  totalClasses : ℚ
deriving DecidableEq

/-- index.ts lines 73-82: the accumulation loop of `generateResultPdf`.
Returns `(totalCredits, earnedPoints)`. -/
def resultTotals (grades : List GradeEntry) : ℚ × ℚ :=
  grades.foldl
    (fun acc g =>
      let credit := g.subject.credits
      let gradePoint := g.grade
      let tc := acc.1 + credit
      let ep :=
        if credit > 0 then acc.2 + credit * (if gradePoint > 0 then gradePoint else 0)
        else acc.2
      (tc, ep))
    (0, 0)

/-- index.ts lines 84-85: `totalCredits > 0 ? (earnedPoints / totalCredits).toFixed(2) : "0.00"`. -/
def sgpaOf (grades : List GradeEntry) : String :=
  let t := resultTotals grades
  if t.1 > 0 then jsToFixed 2 (t.2 / t.1) else "0.00"

/-- index.ts lines 124-132: `getGradeLetter`. -/
def getGradeLetter (point : ℚ) : String :=
  if point ≥ 10 then "EX"
  else if point ≥ 9 then "A"
  else if point ≥ 8 then "B"
  else if point ≥ 7 then "C"
  else if point ≥ 6 then "D"
  else if point ≥ 5 then "E"
  else "R"

/-- index.ts lines 232-237: the accumulation loop of `generateAttendancePdf`.
Returns `(totalAttended, totalClasses)`. -/
def attendanceTotals (records : List AttendanceEntry) : ℚ × ℚ :=
  records.foldl (fun acc r => (acc.1 + r.attendedClasses, acc.2 + r.totalClasses)) (0, 0)

/-- index.ts lines 239-242: overall attendance percentage string. -/
def overallPercentOf (records : List AttendanceEntry) : String :=
  let t := attendanceTotals records
  if t.2 > 0 then jsToFixed 2 (t.1 / t.2 * 100) else "0.00"

/-- index.ts lines 246-249: per-entry attendance percentage string. -/
def entryPercentOf (r : AttendanceEntry) : String :=
  if r.totalClasses > 0 then jsToFixed 1 (r.attendedClasses / r.totalClasses * 100)
  else "0.0"

/-- `[-_ ]` in the title regexes. -/
def isSepChar (c : Char) : Bool :=
  c = '-' || c = '_' || c = ' '

/-- `[EP]` with the `i` flag. -/
def isYearLetter (c : Char) : Bool :=
  c = 'E' || c = 'e' || c = 'P' || c = 'p'

/-- `[1-4]`. -/
def isDigit14 (c : Char) : Bool :=
  c = '1' || c = '2' || c = '3' || c = '4'

/-- `[1-3]`. -/
def isDigit13 (c : Char) : Bool :=
  c = '1' || c = '2' || c = '3'

/-- Match `[-_ ]?(d)` at the head of `l`, where `d` is described by `isD`:
the greedy optional separator, then one captured digit. Separator characters
and digits are disjoint, so the greedy optional needs no backtracking. -/
def optSepDigit (isD : Char → Bool) : List Char → Option Char
  | d :: rest =>
    if isD d then some d
    else if isSepChar d then
      match rest with
      | e :: _ => if isD e then some e else none
      | [] => none
    else none
  | [] => none

/-- Match `([EP])[-_ ]?([1-4])` (flag `i`) anchored at the head of `l`,
returning the two captures. index.ts line 99. -/
def yearMatchAt (l : List Char) : Option (Char × Char) :=
  match l with
  | c :: rest =>
    if isYearLetter c then (optSepDigit isDigit14 rest).map (fun d => (c, d))
    else none
  | [] => none

/-- Leftmost match of the year regex, as `String.prototype.match` finds it. -/
def findYear : List Char → Option (Char × Char)
  | [] => none
  | c :: rest =>
    match yearMatchAt (c :: rest) with
    | some r => some r
    | none => findYear rest

/-- Strip `p` (case-insensitively) from the head of `l`. -/
def dropCI : List Char → List Char → Option (List Char)
  | [], l => some l
  | _ :: _, [] => none
  | p :: ps, c :: cs => if p.toLower = c.toLower then dropCI ps cs else none

/-- Match `S(?:em(?:ester)?)?[-_ ]?([1-3])` (flag `i`) anchored at the head,
returning the captured digit. The optional group backtracks in the order
`emester`, `em`, empty. index.ts line 102. -/
def semMatchAt (l : List Char) : Option Char :=
  match l with
  | c :: rest =>
    if c = 'S' || c = 's' then
      match dropCI ['e', 'm', 'e', 's', 't', 'e', 'r'] rest with
      | some r =>
        match optSepDigit isDigit13 r with
        | some d => some d
        | none => semBacktrack rest
      | none => semBacktrack rest
    else none
  | [] => none
where
  /-- Fallback alternatives `em` and the empty expansion. -/
  semBacktrack (rest : List Char) : Option Char :=
    match dropCI ['e', 'm'] rest with
    | some r =>
      match optSepDigit isDigit13 r with
      | some d => some d
      | none => optSepDigit isDigit13 rest
    | none => optSepDigit isDigit13 rest

/-- Leftmost match of the semester regex. -/
def findSem : List Char → Option Char
  | [] => none
  | c :: rest =>
    match semMatchAt (c :: rest) with
    | some r => some r
    | none => findSem rest

/-- Match `^[a-zA-Z]+[-_ ]?([1-4])` against `l` (anchored), returning the
captured digit. Backtracking inside `[a-zA-Z]+` can never help because a
letter is neither a separator nor a digit, so the maximal letter run is
equivalent. index.ts line 111. -/
def codeMatch (l : List Char) : Option Char :=
  let letters := l.takeWhile (fun c => c.isAlpha)
  if letters.isEmpty then none
  else optSepDigit isDigit14 (l.dropWhile (fun c => c.isAlpha))

/-- `String.prototype.replace` with a plain-string pattern: replace the first
occurrence only (identity when the pattern does not occur). -/
def listReplaceFirst (pat repl : List Char) : List Char → List Char
  | [] => if pat = ([] : List Char) then repl else []
  | c :: rest =>
    if pat.isPrefixOf (c :: rest) then repl ++ (c :: rest).drop pat.length
    else c :: listReplaceFirst pat repl rest

/-- String version of `listReplaceFirst`. -/
def strReplaceFirst (s pat repl : String) : String :=
  String.mk (listReplaceFirst pat.data repl.data s.data)

/-- `String.prototype.toUpperCase` (ASCII, which covers every input the
verified claims range over). -/
def jsToUpper (s : String) : String :=
  String.mk (s.data.map Char.toUpper)

/-- index.ts lines 87-122: the title logic of `generateResultPdf`.
`yearStr`/`semStr` come from the two regex searches on `semesterId`; if
`yearStr` stayed empty it is re-derived from the first grade entry's subject
code (the truthiness guard on `grades[0].subject.code` skips an empty code);
if both are non-empty the composed title is used, otherwise the uppercased
fallback with the first `" RESULTS RESULTS"` occurrence collapsed. -/
def deriveResultTitle (semesterId : String) (grades : List GradeEntry) : String :=
  let yearStr :=
    match findYear semesterId.data with
    | some (c, d) => String.mk [c.toUpper, d]
    | none => ""
  let semStr :=
    match findSem semesterId.data with
    | some d => String.mk [d]
    | none => ""
  let yearStr2 :=
    if yearStr = "" then
      match grades with
      | [] => yearStr
      | g :: _ =>
        if g.subject.code = "" then yearStr
        else
          match codeMatch g.subject.code.data with
          | some d => String.mk ['E', d]
          | none => yearStr
    else yearStr
  if yearStr2 ≠ "" ∧ semStr ≠ "" then
    yearStr2 ++ " SEMESTER-" ++ semStr ++ " RESULTS"
  else
    strReplaceFirst (jsToUpper semesterId ++ " RESULTS") " RESULTS RESULTS" " RESULTS"

/-- `l` contains `pat` as a contiguous sublist
(`String.prototype.includes` on the char lists). -/
def listContains (pat : List Char) : List Char → Bool
  | [] => pat.isEmpty
  | c :: rest => pat.isPrefixOf (c :: rest) || listContains pat rest

/-- The error value thrown by `puppeteer.launch`: index.ts reads
`err.code` and `err.message`. -/
structure LaunchError where
  code : Option String
  message : String
deriving DecidableEq

/-- index.ts line 58: `err.code === "ETXTBSY" || err.message.includes("ETXTBSY")`. -/
def isTransientErr (e : LaunchError) : Bool :=
  e.code == some "ETXTBSY" || listContains "ETXTBSY".data e.message.data

/-- Observable events of the launch retry loop. -/
inductive LEv where
  | attempt (i : Nat)
  | wait (ms : Nat)
deriving DecidableEq

/-- index.ts lines 41-66: the retry loop of `baseLaunchBrowser`, modelled by
recursion over the remaining loop indices (`List.range retries` at the top
call). `env i` is the outcome of the `i`-th `puppeteer.launch` attempt. The
JS guard `i < retries - 1` holds exactly when further indices remain, i.e.
when the tail of the index list is non-empty. Falling off the loop returns
`undefined`, modelled as `.ok none`. -/
def launchGo (env : Nat → Except LaunchError Unit) :
    List Nat → Except LaunchError (Option Unit) × List LEv
  | [] => (.ok none, [])
  | i :: rest =>
    match env i with
    | .ok _ => (.ok (some ()), [.attempt i])
    | .error err =>
      if rest ≠ ([] : List Nat) ∧ isTransientErr err = true then
        let r := launchGo env rest
        (r.1, .attempt i :: .wait 200 :: r.2)
      else (.error err, [.attempt i])

/-- index.ts lines 37-67: `baseLaunchBrowser(retries = 3)`. `execRes` is the
outcome of `getExecutablePath()` (awaited before the loop; its failure
propagates with no attempt made). -/
def baseLaunchBrowser (execRes : Except LaunchError String)
    (env : Nat → Except LaunchError Unit) (retries : Nat := 3) :
    Except LaunchError (Option Unit) × List LEv :=
  match execRes with
  | .error e => (.error e, [])
  | .ok _ => launchGo env (List.range retries)

/-- Is this event a launch attempt? -/
def isAttemptEv : LEv → Bool
  | .attempt _ => true
  | _ => false

/-- Observable events of the PDF-generation browser phase. -/
inductive BEvent where
  | launchReq
  | newPageStep
  | setContentStep
  | pdfStep
  | loggedError
  | close
deriving DecidableEq

/-- Outcomes of the browser-side operations a PDF generation performs:
`launch` is the result of `baseLaunchBrowser()` (`.ok none` models the
`undefined` fall-through), the rest are the page operations. -/
structure RenderEnv where
  launch : Except String (Option Unit)
  newPage : Except String Unit
  setContent : Except String Unit
  pdf : Except String Nat

/-- index.ts lines 213-220 (and 323-330): `newPage`, `setContent`,
`page.pdf` in sequence; the first failure aborts the rest. -/
def renderSteps (env : RenderEnv) : Except String Nat × List BEvent :=
  match env.newPage with
  | .error e => (.error e, [.newPageStep])
  | .ok _ =>
    match env.setContent with
    | .error e => (.error e, [.newPageStep, .setContentStep])
    | .ok _ =>
      match env.pdf with
      | .error e => (.error e, [.newPageStep, .setContentStep, .pdfStep])
      | .ok b => (.ok b, [.newPageStep, .setContentStep, .pdfStep])

/-- index.ts lines 208-227 / 319-337: the `try`/`catch`/`finally` block.
The `catch` logs (`console.error`) and rethrows; the `finally` closes the
browser only when the variable was assigned, i.e. only when
`baseLaunchBrowser` returned (browser or `undefined`) rather than threw,
and the `if (!browser)` guard throws on `undefined` with the browser
variable still unset. -/
def pdfBrowserPhase (env : RenderEnv) : Except String Nat × List BEvent :=
  match env.launch with
  | .error e => (.error e, [.launchReq, .loggedError])
  | .ok none => (.error "Failed to launch browser", [.launchReq, .loggedError])
  | .ok (some _) =>
    let r := renderSteps env
    match r.1 with
    | .ok b => (.ok b, .launchReq :: r.2 ++ [.close])
    | .error e => (.error e, .launchReq :: r.2 ++ [.loggedError, .close])

/-- index.ts lines 208-227: the effectful tail of `generateResultPdf`
(after the pure HTML composition). -/
def generateResultPdfRun (env : RenderEnv) : Except String Nat × List BEvent :=
  pdfBrowserPhase env

/-- index.ts lines 319-337: the effectful tail of `generateAttendancePdf`;
textually the same acquire/render/release block as the result variant. -/
def generateAttendancePdfRun (env : RenderEnv) : Except String Nat × List BEvent :=
  pdfBrowserPhase env

/-- The ambient state `getExecutablePath` reads: the deployment-mode flag,
what `chromium.executablePath()` resolves to, the
`PUPPETEER_EXECUTABLE_PATH` variable (`none` when unset), and the
filesystem (`fs.existsSync`). -/
structure ExecEnv where
  isProduction : Bool
  chromiumPath : String
  envOverride : Option String
  fsExists : String → Bool

/-- JS truthiness of an optional environment-variable string:
unset and the empty string are falsy. -/
def jsTruthy : Option String → Bool
  | some s => s ≠ ""
  | none => false

/-- index.ts lines 21-26: the fixed ordered list of probed install paths. -/
def wellKnownPaths : List String :=
  [ "/Applications/Google Chrome.app/Contents/MacOS/Google Chrome",
    "/Applications/Brave Browser.app/Contents/MacOS/Brave Browser",
    "/Applications/Microsoft Edge.app/Contents/MacOS/Microsoft Edge",
    "/usr/bin/google-chrome" ]

/-- index.ts line 32: the message of the error thrown when no path matches. -/
def noBrowserMsg : String :=
  "Could not find a suitable browser for Puppeteer. Please install Google Chrome or Brave Browser."

/-- index.ts lines 14-35: `getExecutablePath`. Production returns the
managed chromium path; otherwise a truthy `PUPPETEER_EXECUTABLE_PATH` is
returned as-is (no existence probe); otherwise the first path of the fixed
list that exists; otherwise the error is thrown. -/
def getExecutablePath (env : ExecEnv) : Except String String :=
  if env.isProduction then .ok env.chromiumPath
  else if jsTruthy env.envOverride then .ok (env.envOverride.getD "")
  else
    match wellKnownPaths.find? env.fsExists with
    | some p => .ok p
    | none => .error noBrowserMsg

/-- Modelled from the words of the claim (for comparison with
`getExecutablePath`, not from the source): in non-production mode every
candidate — the override first, then the fixed list — is subject to the
filesystem-existence probe, and the resolution fails when no candidate
exists. -/
def getExecutablePathClaimed (env : ExecEnv) : Except String String :=
  if env.isProduction then .ok env.chromiumPath
  else
    match ((env.envOverride.toList.filter (fun s => s ≠ "")) ++ wellKnownPaths).find? env.fsExists with
    | some p => .ok p
    | none => .error noBrowserMsg

/-- One attachment of an outbound message (index.ts lines 409-415 / 437-443);
`content` is the PDF buffer, identified by the opaque value that
`generate*Pdf` produced. -/
structure MailAttachment where
  filename : String
  content : Nat
  contentType : String
deriving DecidableEq

/-- The argument of `transporter.sendMail` (field `from`/`to` are spelled
`fromAddr`/`toAddr` because they are Lean keywords). -/
structure MailMsg where
  fromAddr : String
  toAddr : String
  subject : String
  html : String
  attachments : List MailAttachment
deriving DecidableEq

/-- Observable events of the worker handler: a message handed to the mail
transport, and an error log line (`console.error`). -/
inductive WEv where
  | sendReq (m : MailMsg)
  | logged (msg : String)
deriving DecidableEq

/-- Is this event an outbound message? -/
def isSendEv : WEv → Bool
  | .sendReq _ => true
  | _ => false

/-- Outcomes of the collaborators a single job invocation can hit:
the two PDF generators and the mail transport. -/
structure WorkerEnv where
  resultPdf : Except String Nat
  attendancePdf : Except String Nat
  sendOutcome : Except String Unit

/-- The fields of `job.data` the handler reads (index.ts lines 386, 398,
411, 426, 439). `html` is `none` when the field is absent. -/
structure JobData where
  type : String
  recipient : String
  subject : String
  body : String
  html : Option String
  semesterId : String
  username : String

/-- index.ts lines 363-380: `emailTemplate(title, content)`. -/
def emailTemplate (title content : String) : String :=
  "\n  <div style=\"font-family: Arial, sans-serif; max-width: 600px; margin: 0 auto; border: 1px solid #e5e7eb; border-radius: 8px;\">\n    <div style=\"background: linear-gradient(135deg, #2563eb 0%, #1d4ed8 100%); padding: 30px; border-radius: 8px 8px 0 0;\">\n      <h1 style=\"color: white; margin: 0; font-size: 24px;\">ðŸŽ“ UniZ Campus</h1>\n    </div>\n    <div style=\"padding: 30px;\">\n      <h2 style=\"color: #1f2937; margin-top: 0;\">" ++
    title ++
    "</h2>\n      <div style=\"color: #4b5563; line-height: 1.6;\">\n        " ++
    content ++
    "\n      </div>\n      <hr style=\"border: none; border-top: 1px solid #e5e7eb; margin: 30px 0;\">\n      <p style=\"color: #9ca3af; font-size: 12px; margin: 0;\">\n        This is an automated email from UniZ Campus Management System.<br>\n        Please do not reply to this email.\n      </p>\n    </div>\n  </div>\n"

/-- JS `a || b` where `a` is an optional string field:
the default is used when the field is absent or empty (falsy). -/
def jsOrString (v : Option String) (d : String) : String :=
  match v with
  | some s => if s = "" then d else s
  | none => d

/-- Hand one message to the mail transport: the transport always receives
it (one `sendReq` event); the call's result is the transport's outcome. -/
def sendMail (env : WorkerEnv) (m : MailMsg) : Except String Unit × List WEv :=
  (env.sendOutcome, [.sendReq m])

/-- index.ts line 420: the error log line of the RESULTS branch. -/
def resultFailLog (recipient msg : String) : String :=
  "Failed to generate/send Result PDF for " ++ recipient ++ ": " ++ msg

/-- index.ts line 448: the error log line of the ATTENDANCE_REPORT branch. -/
def attendanceFailLog (recipient msg : String) : String :=
  "Failed to generate/send Attendance PDF for " ++ recipient ++ ": " ++ msg

/-- index.ts lines 384-453: the job handler passed to `new Worker`.
Each report branch awaits its PDF generator, then sends one message with
the PDF attached; its `catch` logs with the recipient as context and
rethrows. A job whose `type` matches no branch falls through and the
handler returns normally. -/
def workerHandler (job : JobData) (env : WorkerEnv) : Except String Unit × List WEv :=
  if job.type = "EMAIL" then
    sendMail env
      { fromAddr := "\"UniZ Campus\" <noreplycampusschield@gmail.com>",
        toAddr := job.recipient,
        subject := job.subject,
        html := jsOrString job.html (emailTemplate job.subject ("<p>" ++ job.body ++ "</p>")),
        attachments := [] }
  else if job.type = "RESULTS" then
    match env.resultPdf with
    | .error e => (.error e, [.logged (resultFailLog job.recipient e)])
    | .ok buf =>
      let s := sendMail env
        { fromAddr := "\"UniZ Academics\" <noreplycampusschield@gmail.com>",
          toAddr := job.recipient,
          subject := "Result Declaration: " ++ job.semesterId,
          html := emailTemplate ("Result Declaration: " ++ job.semesterId)
            ("<p>Dear Student,<br><br>The results for <strong>" ++ job.semesterId ++
              "</strong> have been published.<br>Please find the detailed grade report attached.</p>"),
          attachments := [{ filename := "ACADEMIC_REPORT_" ++ job.username ++ "_" ++ job.semesterId ++ ".pdf",
                            content := buf, contentType := "application/pdf" }] }
      match s.1 with
      | .ok _ => (.ok (), s.2)
      | .error e => (.error e, s.2 ++ [.logged (resultFailLog job.recipient e)])
  else if job.type = "ATTENDANCE_REPORT" then
    match env.attendancePdf with
    | .error e => (.error e, [.logged (attendanceFailLog job.recipient e)])
    | .ok buf =>
      let s := sendMail env
        { fromAddr := "\"UniZ Academics\" <noreplycampusschield@gmail.com>",
          toAddr := job.recipient,
          subject := "Attendance Report: " ++ job.semesterId,
          html := emailTemplate ("Attendance Report: " ++ job.semesterId)
            ("<p>Dear Student,<br><br>The attendance report for <strong>" ++ job.semesterId ++
              "</strong> is now available.<br>Please find your detailed attendance record attached.</p>"),
          attachments := [{ filename := job.username ++ "_Attendance_" ++ job.semesterId ++ ".pdf",
                            content := buf, contentType := "application/pdf" }] }
      match s.1 with
      | .ok _ => (.ok (), s.2)
      | .error e => (.error e, s.2 ++ [.logged (attendanceFailLog job.recipient e)])
  else (.ok (), [])

/-! ## Helper lemmas -/

theorem jsToFixed_eq_of_bounds (f : Nat) (q : ℚ) (n : Nat) (h0 : 0 ≤ q)
    (h1 : (n : ℚ) ≤ q * (10 : ℚ) ^ f + 1 / 2)
    (h2 : q * (10 : ℚ) ^ f + 1 / 2 < n + 1) :
    jsToFixed f q = jsToFixedN f n := by
  have hq : ¬q < 0 := not_lt.2 h0
  unfold jsToFixed
  rw [if_neg hq, if_neg hq]
  have hfl : ⌊q * (10 : ℚ) ^ f + 1 / 2⌋ = (n : ℤ) := by
    rw [Int.floor_eq_iff]
    refine ⟨by exact_mod_cast h1, by push_cast; exact h2⟩
  rw [hfl]
  simp

theorem ite_pos_eq_max (x : ℚ) : (if x > 0 then x else 0) = max x 0 := by
  rcases le_or_lt x 0 with h | h
  · rw [if_neg (not_lt.2 h), max_eq_right h]
  · rw [if_pos h, max_eq_left h.le]

theorem resultTotals_shift (gs : List GradeEntry) (a b : ℚ) :
    gs.foldl
      (fun acc g =>
        (acc.1 + g.subject.credits,
          if g.subject.credits > 0 then
            acc.2 + g.subject.credits * (if g.grade > 0 then g.grade else 0)
          else acc.2))
      (a, b)
    = (a +
        (gs.foldl
          (fun acc g =>
            (acc.1 + g.subject.credits,
              if g.subject.credits > 0 then
                acc.2 + g.subject.credits * (if g.grade > 0 then g.grade else 0)
              else acc.2))
          ((0 : ℚ), (0 : ℚ))).1,
       b +
        (gs.foldl
          (fun acc g =>
            (acc.1 + g.subject.credits,
              if g.subject.credits > 0 then
                acc.2 + g.subject.credits * (if g.grade > 0 then g.grade else 0)
              else acc.2))
          ((0 : ℚ), (0 : ℚ))).2) := by
  induction gs generalizing a b with
  | nil => simp
  | cons g gs ih =>
    simp only [List.foldl_cons]
    rw [ih (a + g.subject.credits), ih (0 + g.subject.credits)]
    simp only [Prod.mk.injEq]
    refine ⟨by ring, ?_⟩
    split_ifs <;> ring

theorem attendanceTotals_shift (rs : List AttendanceEntry) (a b : ℚ) :
    rs.foldl (fun acc r => (acc.1 + r.attendedClasses, acc.2 + r.totalClasses)) (a, b)
    = (a + (rs.foldl (fun acc r => (acc.1 + r.attendedClasses, acc.2 + r.totalClasses))
              ((0 : ℚ), (0 : ℚ))).1,
       b + (rs.foldl (fun acc r => (acc.1 + r.attendedClasses, acc.2 + r.totalClasses))
              ((0 : ℚ), (0 : ℚ))).2) := by
  induction rs generalizing a b with
  | nil => simp
  | cons r rs ih =>
    simp only [List.foldl_cons]
    rw [ih (a + r.attendedClasses), ih (0 + r.attendedClasses)]
    simp only [Prod.mk.injEq]
    constructor <;> ring

theorem resultTotals_sum (gs : List GradeEntry) :
    resultTotals gs =
      ((gs.map fun g => g.subject.credits).sum,
       (gs.map fun g =>
          if g.subject.credits > 0 then g.subject.credits * max g.grade 0 else 0).sum) := by
  induction gs with
  | nil => simp [resultTotals]
  | cons g gs ih =>
    simp only [resultTotals, List.foldl_cons] at ih ⊢
    rw [resultTotals_shift gs (0 + g.subject.credits), ih]
    simp only [List.map_cons, List.sum_cons, Prod.mk.injEq, ite_pos_eq_max]
    constructor
    · ring
    · split_ifs <;> ring

theorem attendanceTotals_sum (rs : List AttendanceEntry) :
    attendanceTotals rs =
      ((rs.map fun r => r.attendedClasses).sum, (rs.map fun r => r.totalClasses).sum) := by
  induction rs with
  | nil => simp [attendanceTotals]
  | cons r rs ih =>
    simp only [attendanceTotals, List.foldl_cons] at ih ⊢
    rw [attendanceTotals_shift rs (0 + r.attendedClasses), ih]
    simp only [List.map_cons, List.sum_cons, Prod.mk.injEq]
    constructor <;> ring

/-! ## Claim theorems -/

/-- Claim C4: the SGPA computation accumulates `totalCredits` over all
entries and `earnedPoints += credit * max(gradePoint, 0)` only for entries
with positive credit; the SGPA string is the quotient rendered to two
decimals when `totalCredits` is positive and `"0.00"` when it is zero; and
the concrete scenario with credits `[4, 3]` and grade points `[9, 7]` gives
totals `(7, 57)` and SGPA `"8.14"`. -/
theorem C4_sgpa_computation : ∀ grades : List GradeEntry,
    (resultTotals grades).1 = (grades.map fun g => g.subject.credits).sum
    ∧ (resultTotals grades).2 =
        (grades.map fun g =>
          if g.subject.credits > 0 then g.subject.credits * max g.grade 0 else 0).sum
    ∧ (0 < (resultTotals grades).1 →
        sgpaOf grades = jsToFixed 2 ((resultTotals grades).2 / (resultTotals grades).1))
    ∧ ((resultTotals grades).1 = 0 → sgpaOf grades = "0.00")
    ∧ resultTotals
        [⟨⟨"Mathematics", "MA101", 4⟩, 9⟩, ⟨⟨"Physics", "PH102", 3⟩, 7⟩] = (7, 57)
    ∧ sgpaOf [⟨⟨"Mathematics", "MA101", 4⟩, 9⟩, ⟨⟨"Physics", "PH102", 3⟩, 7⟩] = "8.14" := by
  have hconc : resultTotals
      [⟨⟨"Mathematics", "MA101", 4⟩, 9⟩, ⟨⟨"Physics", "PH102", 3⟩, 7⟩] = ((7 : ℚ), (57 : ℚ)) := by
    simp only [resultTotals, List.foldl_cons, List.foldl_nil]
    norm_num
  intro grades
  refine ⟨(congrArg Prod.fst (resultTotals_sum grades)),
          (congrArg Prod.snd (resultTotals_sum grades)), ?_, ?_, hconc, ?_⟩
  · intro hpos
    simp only [sgpaOf]
    rw [if_pos hpos]
  · intro hzero
    simp only [sgpaOf]
    rw [hzero]
    norm_num
  · simp only [sgpaOf, hconc]
    norm_num
    rw [jsToFixed_eq_of_bounds 2 (57 / 7) 814 (by norm_num) (by norm_num) (by norm_num)]
    decide

/-- Witness for C4: the positivity hypothesis holds at the concrete grade
list and the theorem yields the rendered quotient there. -/
theorem C4_sgpa_computation_witness :
    0 < (resultTotals [⟨⟨"Mathematics", "MA101", 4⟩, 9⟩, ⟨⟨"Physics", "PH102", 3⟩, 7⟩]).1
    ∧ sgpaOf [⟨⟨"Mathematics", "MA101", 4⟩, 9⟩, ⟨⟨"Physics", "PH102", 3⟩, 7⟩]
      = jsToFixed 2
          ((resultTotals [⟨⟨"Mathematics", "MA101", 4⟩, 9⟩, ⟨⟨"Physics", "PH102", 3⟩, 7⟩]).2 /
           (resultTotals [⟨⟨"Mathematics", "MA101", 4⟩, 9⟩, ⟨⟨"Physics", "PH102", 3⟩, 7⟩]).1) := by
  have hpos : (0 : ℚ) <
      (resultTotals [⟨⟨"Mathematics", "MA101", 4⟩, 9⟩, ⟨⟨"Physics", "PH102", 3⟩, 7⟩]).1 := by
    norm_num [resultTotals]
  exact ⟨hpos,
    (C4_sgpa_computation [⟨⟨"Mathematics", "MA101", 4⟩, 9⟩, ⟨⟨"Physics", "PH102", 3⟩, 7⟩]).2.2.1 hpos⟩

/-- Claim C5: the letter-grade mapping is total and follows the fixed
threshold table with boundaries inclusive downward; every grade point lands
in exactly one band and receives that band's letter. -/
theorem C5_grade_letter : ∀ p : ℚ,
    getGradeLetter p ∈ (["EX", "A", "B", "C", "D", "E", "R"] : List String)
    ∧ (10 ≤ p → getGradeLetter p = "EX")
    ∧ (9 ≤ p → p < 10 → getGradeLetter p = "A")
    ∧ (8 ≤ p → p < 9 → getGradeLetter p = "B")
    ∧ (7 ≤ p → p < 8 → getGradeLetter p = "C")
    ∧ (6 ≤ p → p < 7 → getGradeLetter p = "D")
    ∧ (5 ≤ p → p < 6 → getGradeLetter p = "E")
    ∧ (p < 5 → getGradeLetter p = "R") := by
  intro p
  unfold getGradeLetter
  refine ⟨by split_ifs <;> simp, ?_, ?_, ?_, ?_, ?_, ?_, ?_⟩
  · intro h; rw [if_pos h]
  · intro h hl
    rw [if_neg (not_le.2 hl), if_pos h]
  · intro h hl
    rw [if_neg (by linarith : ¬(10 : ℚ) ≤ p), if_neg (not_le.2 hl), if_pos h]
  · intro h hl
    rw [if_neg (by linarith : ¬(10 : ℚ) ≤ p), if_neg (by linarith : ¬(9 : ℚ) ≤ p),
      if_neg (not_le.2 hl), if_pos h]
  · intro h hl
    rw [if_neg (by linarith : ¬(10 : ℚ) ≤ p), if_neg (by linarith : ¬(9 : ℚ) ≤ p),
      if_neg (by linarith : ¬(8 : ℚ) ≤ p), if_neg (not_le.2 hl), if_pos h]
  · intro h hl
    rw [if_neg (by linarith : ¬(10 : ℚ) ≤ p), if_neg (by linarith : ¬(9 : ℚ) ≤ p),
      if_neg (by linarith : ¬(8 : ℚ) ≤ p), if_neg (by linarith : ¬(7 : ℚ) ≤ p),
      if_neg (not_le.2 hl), if_pos h]
  · intro hl
    rw [if_neg (by linarith : ¬(10 : ℚ) ≤ p), if_neg (by linarith : ¬(9 : ℚ) ≤ p),
      if_neg (by linarith : ¬(8 : ℚ) ≤ p), if_neg (by linarith : ¬(7 : ℚ) ≤ p),
      if_neg (by linarith : ¬(6 : ℚ) ≤ p), if_neg (not_le.2 hl)]

/-- Witness for C5: at the boundary grade point 9 the mapping yields `"A"`. -/
theorem C5_grade_letter_witness :
    (9 : ℚ) ≤ 9 ∧ (9 : ℚ) < 10 ∧ getGradeLetter 9 = "A" :=
  ⟨le_refl _, by norm_num, (C5_grade_letter 9).2.2.1 (le_refl _) (by norm_num)⟩

/-- Claim C6: the overall attendance percentage is the summed quotient
times 100 rendered to two decimals (`"0.00"` when the summed total is 0),
each entry's percentage is rendered to one decimal (`"0.0"` when its total
is 0), and the single record `45/60` yields `"75.0"` per entry and
`"75.00"` overall. -/
theorem C6_attendance_percentages : ∀ records : List AttendanceEntry,
    (attendanceTotals records).1 = (records.map fun r => r.attendedClasses).sum
    ∧ (attendanceTotals records).2 = (records.map fun r => r.totalClasses).sum
    ∧ (0 < (attendanceTotals records).2 →
        overallPercentOf records =
          jsToFixed 2 ((attendanceTotals records).1 / (attendanceTotals records).2 * 100))
    ∧ ((attendanceTotals records).2 = 0 → overallPercentOf records = "0.00")
    ∧ (∀ r : AttendanceEntry, 0 < r.totalClasses →
        entryPercentOf r = jsToFixed 1 (r.attendedClasses / r.totalClasses * 100))
    ∧ (∀ r : AttendanceEntry, r.totalClasses = 0 → entryPercentOf r = "0.0")
    ∧ entryPercentOf ⟨⟨"DBMS", "CS301", 3⟩, 45, 60⟩ = "75.0"
    ∧ overallPercentOf [⟨⟨"DBMS", "CS301", 3⟩, 45, 60⟩] = "75.00" := by
  intro records
  refine ⟨congrArg Prod.fst (attendanceTotals_sum records),
          congrArg Prod.snd (attendanceTotals_sum records), ?_, ?_, ?_, ?_, ?_, ?_⟩
  · intro hpos
    simp only [overallPercentOf]
    rw [if_pos hpos]
  · intro hzero
    simp only [overallPercentOf]
    rw [hzero]
    norm_num
  · intro r hpos
    simp only [entryPercentOf]
    rw [if_pos hpos]
  · intro r hzero
    simp only [entryPercentOf]
    rw [hzero]
    norm_num
  · simp only [entryPercentOf]
    norm_num
    rw [jsToFixed_eq_of_bounds 1 75 750 (by norm_num) (by norm_num) (by norm_num)]
    decide
  · have hconc : attendanceTotals [⟨⟨"DBMS", "CS301", 3⟩, 45, 60⟩] = ((45 : ℚ), (60 : ℚ)) := by
      simp [attendanceTotals]
    simp only [overallPercentOf, hconc]
    norm_num
    rw [jsToFixed_eq_of_bounds 2 75 7500 (by norm_num) (by norm_num) (by norm_num)]
    decide

/-- Witness for C6: the per-entry hypothesis holds at the record `45/60`
and the theorem yields the rendered quotient there. -/
theorem C6_attendance_percentages_witness :
    (0 : ℚ) < 60
    ∧ entryPercentOf ⟨⟨"DBMS", "CS301", 3⟩, 45, 60⟩ = jsToFixed 1 ((45 : ℚ) / 60 * 100) :=
  ⟨by norm_num,
    (C6_attendance_percentages []).2.2.2.2.1 ⟨⟨"DBMS", "CS301", 3⟩, 45, 60⟩ (by norm_num)⟩

theorem string_mk_cons_ne_empty (a : Char) (l : List Char) : String.mk (a :: l) ≠ "" := by
  intro h
  have h2 : (String.mk (a :: l)).data = ("" : String).data := congrArg String.data h
  simp at h2

/-- Counterexample for C7 as stated: in `"S1"` the year pattern is absent and
the semester pattern yields `1`; the second grade entry's subject code
`"CS2"` matches the leading-letters-then-digit pattern (so at least one
entry's code matches), yet the derived title is the fallback
`"S1 RESULTS"`, not the composed `"E2 SEMESTER-1 RESULTS"` the claim
requires — only the first entry's code is consulted, and `"1X"` does not
match. -/
theorem C7_title_counterexample :
    findYear ("S1".data) = none
    ∧ findSem ("S1".data) = some '1'
    ∧ codeMatch ("1X".data) = none
    ∧ codeMatch ("CS2".data) = some '2'
    ∧ deriveResultTitle "S1"
        [⟨⟨"Subject A", "1X", 4⟩, 9⟩, ⟨⟨"Subject B", "CS2", 3⟩, 8⟩] = "S1 RESULTS"
    ∧ ("S1 RESULTS" : String) ≠ "E2 SEMESTER-1 RESULTS" := by
  refine ⟨by decide, by decide, by decide, by decide, by decide, by decide⟩

/-- Claim C7 (amended: the year is inferred from the FIRST grade entry's
subject code, not from any entry): title derivation is total, composing
`"<YEAR><DIGIT> SEMESTER-<N> RESULTS"` when both patterns are found,
inferring the year from the first entry's code when the year is missing,
and otherwise falling back to the uppercased `semesterId` plus
`" RESULTS"` with the first doubled `" RESULTS RESULTS"` collapsed. -/
theorem C7_title_derivation : ∀ (s : String) (grades : List GradeEntry),
    (∀ c d n, findYear s.data = some (c, d) → findSem s.data = some n →
      deriveResultTitle s grades =
        String.mk [c.toUpper, d] ++ " SEMESTER-" ++ String.mk [n] ++ " RESULTS")
    ∧ (∀ g rest d n, findYear s.data = none → grades = g :: rest →
        g.subject.code ≠ "" → codeMatch g.subject.code.data = some d →
        findSem s.data = some n →
        deriveResultTitle s grades =
          String.mk ['E', d] ++ " SEMESTER-" ++ String.mk [n] ++ " RESULTS")
    ∧ (findSem s.data = none →
        deriveResultTitle s grades =
          strReplaceFirst (jsToUpper s ++ " RESULTS") " RESULTS RESULTS" " RESULTS")
    ∧ (findYear s.data = none →
        (grades = [] ∨
          ∃ g rest, grades = g :: rest ∧
            (g.subject.code = "" ∨ codeMatch g.subject.code.data = none)) →
        deriveResultTitle s grades =
          strReplaceFirst (jsToUpper s ++ " RESULTS") " RESULTS RESULTS" " RESULTS")
    ∧ deriveResultTitle "E2S1" [] = "E2 SEMESTER-1 RESULTS"
    ∧ deriveResultTitle "AY24-E3-S2" [] = "E3 SEMESTER-2 RESULTS"
    ∧ deriveResultTitle "" [] = " RESULTS"
    ∧ deriveResultTitle "spring results" [] = "SPRING RESULTS" := by
  intro s grades
  refine ⟨?_, ?_, ?_, ?_, by decide, by decide, by decide, by decide⟩
  · intro c d n hY hS
    simp [deriveResultTitle, hY, hS, string_mk_cons_ne_empty]
  · intro g rest d n hY hgr hcode hcm hS
    subst hgr
    simp [deriveResultTitle, hY, hS, hcode, hcm, string_mk_cons_ne_empty]
  · intro hS
    simp [deriveResultTitle, hS]
  · intro hY hcase
    rcases hcase with h | ⟨g, rest, hgr, hg⟩
    · subst h
      simp [deriveResultTitle, hY]
    · subst hgr
      rcases hg with h | h <;> simp [deriveResultTitle, hY, h]

/-- Witness for C7: at `"E2S1"` both patterns are found and the composed
title results. -/
theorem C7_title_derivation_witness :
    findYear ("E2S1".data) = some ('E', '2')
    ∧ findSem ("E2S1".data) = some '1'
    ∧ deriveResultTitle "E2S1" [] =
        String.mk ['E'.toUpper, '2'] ++ " SEMESTER-" ++ String.mk ['1'] ++ " RESULTS" :=
  ⟨by decide, by decide,
    (C7_title_derivation "E2S1" []).1 'E' '2' '1' (by decide) (by decide)⟩

/-- Counterexample for C8 as stated: with a set override pointing at a path
that does not exist (and nothing else existing either), resolution returns
that non-existent path instead of raising — the override is never probed
for existence, contradicting "returning the first candidate that exists …
and fails by raising an error when no candidate matches" (the claim-faithful
`getExecutablePathClaimed` raises here). -/
theorem C8_executable_counterexample :
    getExecutablePath ⟨false, "", some "/nonexistent/chrome", fun _ => false⟩
      = .ok "/nonexistent/chrome"
    ∧ (ExecEnv.mk false "" (some "/nonexistent/chrome") (fun _ => false)).fsExists
        "/nonexistent/chrome" = false
    ∧ getExecutablePathClaimed ⟨false, "", some "/nonexistent/chrome", fun _ => false⟩
      = .error noBrowserMsg := by
  refine ⟨rfl, rfl, rfl⟩

/-- Claim C8 (amended: a set, non-empty override is returned without an
existence check): production mode returns the managed chromium path;
otherwise a truthy override is returned as-is; otherwise the first
well-known path that exists is returned, and the resolution raises when the
override is unset/empty and none of the fixed paths exists. -/
theorem C8_executable_resolution : ∀ env : ExecEnv,
    (env.isProduction = true → getExecutablePath env = .ok env.chromiumPath)
    ∧ (∀ s, env.isProduction = false → env.envOverride = some s → s ≠ "" →
        getExecutablePath env = .ok s)
    ∧ (∀ p, env.isProduction = false → jsTruthy env.envOverride = false →
        wellKnownPaths.find? env.fsExists = some p →
        getExecutablePath env = .ok p)
    ∧ (env.isProduction = false → jsTruthy env.envOverride = false →
        wellKnownPaths.find? env.fsExists = none →
        getExecutablePath env = .error noBrowserMsg) := by
  intro env
  refine ⟨?_, ?_, ?_, ?_⟩
  · intro h
    simp [getExecutablePath, h]
  · intro s hprod hov hs
    simp [getExecutablePath, hprod, hov, jsTruthy, hs]
  · intro p hprod hov hfind
    simp [getExecutablePath, hprod, hov, hfind]
  · intro hprod hov hfind
    simp [getExecutablePath, hprod, hov, hfind]

/-- Witness for C8: in production mode the managed path is returned. -/
theorem C8_executable_resolution_witness :
    (ExecEnv.mk true "/managed/chromium" none (fun _ => false)).isProduction = true
    ∧ getExecutablePath ⟨true, "/managed/chromium", none, fun _ => false⟩
        = .ok "/managed/chromium" :=
  ⟨rfl, (C8_executable_resolution ⟨true, "/managed/chromium", none, fun _ => false⟩).1 rfl⟩

theorem close_not_in_renderSteps (env : RenderEnv) : BEvent.close ∉ (renderSteps env).2 := by
  unfold renderSteps
  cases env.newPage <;> cases env.setContent <;> cases env.pdf <;> simp

/-- Claim C1: whenever the browser launch succeeds, both PDF generators
emit exactly one `close`, as the final event before returning (so the
release happens once, on the success path and on every exception path,
before the operation returns), and the result — success or any exception
raised by page rendering or PDF export — is exactly the render pipeline's
outcome, propagated to the caller after the release. -/
theorem C1_browser_release : ∀ env : RenderEnv, env.launch = .ok (some ()) →
    (∃ pre, (generateResultPdfRun env).2 = pre ++ [BEvent.close] ∧ BEvent.close ∉ pre)
    ∧ (generateResultPdfRun env).1 = (renderSteps env).1
    ∧ (∃ pre, (generateAttendancePdfRun env).2 = pre ++ [BEvent.close] ∧ BEvent.close ∉ pre)
    ∧ (generateAttendancePdfRun env).1 = (renderSteps env).1 := by
  intro env h
  have key : (∃ pre, (pdfBrowserPhase env).2 = pre ++ [BEvent.close] ∧ BEvent.close ∉ pre)
      ∧ (pdfBrowserPhase env).1 = (renderSteps env).1 := by
    rcases hr : (renderSteps env).1 with e | b
    · refine ⟨⟨BEvent.launchReq :: (renderSteps env).2 ++ [BEvent.loggedError], ?_, ?_⟩, ?_⟩
      · simp [pdfBrowserPhase, h, hr]
      · simp [close_not_in_renderSteps env]
      · simp [pdfBrowserPhase, h, hr]
    · refine ⟨⟨BEvent.launchReq :: (renderSteps env).2, ?_, ?_⟩, ?_⟩
      · simp [pdfBrowserPhase, h, hr]
      · simp [close_not_in_renderSteps env]
      · simp [pdfBrowserPhase, h, hr]
  exact ⟨key.1, key.2, key.1, key.2⟩

/-- Witness for C1: a concrete environment where the launch succeeds and
the PDF export throws; the failure propagates while the close still runs. -/
theorem C1_browser_release_witness :
    (RenderEnv.mk (.ok (some ())) (.ok ()) (.ok ()) (.error "pdf export failed")).launch
      = .ok (some ())
    ∧ (generateResultPdfRun ⟨.ok (some ()), .ok (), .ok (), .error "pdf export failed"⟩).1
      = (renderSteps ⟨.ok (some ()), .ok (), .ok (), .error "pdf export failed"⟩).1 :=
  ⟨rfl,
    (C1_browser_release ⟨.ok (some ()), .ok (), .ok (), .error "pdf export failed"⟩ rfl).2.1⟩

/-- Claim C2: with the default budget of 3, the launch loop makes at most 3
attempts; a first-attempt success launches immediately; a non-transient
failure is re-raised at once with no further attempt; a transient failure
with attempts remaining waits a fixed 200 ms and retries; and when every
attempt fails with a transient cause the budget is exhausted after exactly
3 attempts and the last error is raised. -/
theorem C2_launch_retry : ∀ (p : String) (env : Nat → Except LaunchError Unit),
    (baseLaunchBrowser (.ok p) env 3).2.countP isAttemptEv ≤ 3
    ∧ (env 0 = .ok () →
        baseLaunchBrowser (.ok p) env 3 = (.ok (some ()), [.attempt 0]))
    ∧ (∀ e0, env 0 = .error e0 → isTransientErr e0 = false →
        baseLaunchBrowser (.ok p) env 3 = (.error e0, [.attempt 0]))
    ∧ (∀ e0, env 0 = .error e0 → isTransientErr e0 = true → env 1 = .ok () →
        baseLaunchBrowser (.ok p) env 3 =
          (.ok (some ()), [.attempt 0, .wait 200, .attempt 1]))
    ∧ (∀ e0 e1, env 0 = .error e0 → isTransientErr e0 = true →
        env 1 = .error e1 → isTransientErr e1 = false →
        baseLaunchBrowser (.ok p) env 3 = (.error e1, [.attempt 0, .wait 200, .attempt 1]))
    ∧ (∀ e0 e1, env 0 = .error e0 → isTransientErr e0 = true →
        env 1 = .error e1 → isTransientErr e1 = true → env 2 = .ok () →
        baseLaunchBrowser (.ok p) env 3 =
          (.ok (some ()), [.attempt 0, .wait 200, .attempt 1, .wait 200, .attempt 2]))
    ∧ (∀ e0 e1 e2, env 0 = .error e0 → isTransientErr e0 = true →
        env 1 = .error e1 → isTransientErr e1 = true → env 2 = .error e2 →
        baseLaunchBrowser (.ok p) env 3 =
          (.error e2, [.attempt 0, .wait 200, .attempt 1, .wait 200, .attempt 2])) := by
  intro p env
  have hb : baseLaunchBrowser (.ok p) env 3 = launchGo env [0, 1, 2] := rfl
  rw [hb]
  refine ⟨?_, ?_, ?_, ?_, ?_, ?_, ?_⟩
  · rcases h0 : env 0 with e0 | u0
    · cases hT0 : isTransientErr e0
      · simp [launchGo, h0, hT0, isAttemptEv]
      · rcases h1 : env 1 with e1 | u1
        · cases hT1 : isTransientErr e1
          · simp [launchGo, h0, hT0, h1, hT1, isAttemptEv, List.countP_cons]
          · rcases h2 : env 2 with e2 | u2
            · simp [launchGo, h0, hT0, h1, hT1, h2, isAttemptEv, List.countP_cons]
            · simp [launchGo, h0, hT0, h1, hT1, h2, isAttemptEv, List.countP_cons]
        · simp [launchGo, h0, hT0, h1, isAttemptEv, List.countP_cons]
    · simp [launchGo, h0, isAttemptEv]
  · intro h0
    simp [launchGo, h0]
  · intro e0 h0 hT0
    simp [launchGo, h0, hT0]
  · intro e0 h0 hT0 h1
    simp [launchGo, h0, hT0, h1]
  · intro e0 e1 h0 hT0 h1 hT1
    simp [launchGo, h0, hT0, h1, hT1]
  · intro e0 e1 h0 hT0 h1 hT1 h2
    simp [launchGo, h0, hT0, h1, hT1, h2]
  · intro e0 e1 e2 h0 hT0 h1 hT1 h2
    simp [launchGo, h0, hT0, h1, hT1, h2]

/-- Witness for C2 (scenario D of the spec): two transient `ETXTBSY`
failures, then a success on the third attempt. -/
theorem C2_launch_retry_witness :
    (fun i => if i < 2 then Except.error (LaunchError.mk (some "ETXTBSY") "spawn ETXTBSY")
              else Except.ok ()) 0
      = Except.error (LaunchError.mk (some "ETXTBSY") "spawn ETXTBSY")
    ∧ isTransientErr (LaunchError.mk (some "ETXTBSY") "spawn ETXTBSY") = true
    ∧ baseLaunchBrowser (.ok "/usr/bin/google-chrome")
        (fun i => if i < 2 then Except.error (LaunchError.mk (some "ETXTBSY") "spawn ETXTBSY")
                  else Except.ok ()) 3
      = (.ok (some ()), [.attempt 0, .wait 200, .attempt 1, .wait 200, .attempt 2]) :=
  ⟨rfl, by decide,
    (C2_launch_retry "/usr/bin/google-chrome"
        (fun i => if i < 2 then Except.error (LaunchError.mk (some "ETXTBSY") "spawn ETXTBSY")
                  else Except.ok ())).2.2.2.2.2.1
      (LaunchError.mk (some "ETXTBSY") "spawn ETXTBSY")
      (LaunchError.mk (some "ETXTBSY") "spawn ETXTBSY")
      rfl (by decide) rfl (by decide) rfl⟩

/-- Claim C3: for report-type jobs, a failed generation yields no outbound
message, a logged error with the recipient as context, and the error
re-raised; a successful generation followed by a successful send yields a
successful job with exactly one outbound message; a failed send is logged
with context and re-raised. -/
theorem C3_report_job_effects : ∀ (job : JobData) (env : WorkerEnv),
    (job.type = "RESULTS" →
      (∀ e, env.resultPdf = .error e →
        workerHandler job env = (.error e, [.logged (resultFailLog job.recipient e)])
        ∧ (workerHandler job env).2.countP isSendEv = 0)
      ∧ (∀ b, env.resultPdf = .ok b → env.sendOutcome = .ok () →
          (workerHandler job env).1 = .ok ()
          ∧ (workerHandler job env).2.countP isSendEv = 1)
      ∧ (∀ b e, env.resultPdf = .ok b → env.sendOutcome = .error e →
          (workerHandler job env).1 = .error e
          ∧ WEv.logged (resultFailLog job.recipient e) ∈ (workerHandler job env).2))
    ∧ (job.type = "ATTENDANCE_REPORT" →
      (∀ e, env.attendancePdf = .error e →
        workerHandler job env = (.error e, [.logged (attendanceFailLog job.recipient e)])
        ∧ (workerHandler job env).2.countP isSendEv = 0)
      ∧ (∀ b, env.attendancePdf = .ok b → env.sendOutcome = .ok () →
          (workerHandler job env).1 = .ok ()
          ∧ (workerHandler job env).2.countP isSendEv = 1)
      ∧ (∀ b e, env.attendancePdf = .ok b → env.sendOutcome = .error e →
          (workerHandler job env).1 = .error e
          ∧ WEv.logged (attendanceFailLog job.recipient e) ∈ (workerHandler job env).2)) := by
  intro job env
  constructor
  · intro ht
    refine ⟨?_, ?_, ?_⟩
    · intro e hgen
      constructor <;> simp [workerHandler, ht, hgen, isSendEv]
    · intro b hgen hsend
      constructor <;> simp [workerHandler, ht, hgen, hsend, sendMail, isSendEv, List.countP_cons]
    · intro b e hgen hsend
      constructor <;> simp [workerHandler, ht, hgen, hsend, sendMail]
  · intro ht
    refine ⟨?_, ?_, ?_⟩
    · intro e hgen
      constructor <;> simp [workerHandler, ht, hgen, isSendEv]
    · intro b hgen hsend
      constructor <;> simp [workerHandler, ht, hgen, hsend, sendMail, isSendEv, List.countP_cons]
    · intro b e hgen hsend
      constructor <;> simp [workerHandler, ht, hgen, hsend, sendMail]

/-- Witness for C3: a RESULTS job whose PDF generation fails sends nothing,
logs with the recipient as context and re-raises the error. -/
theorem C3_report_job_effects_witness :
    (JobData.mk "RESULTS" "student@example.com" "" "" none "E1S1" "N200001").type = "RESULTS"
    ∧ (WorkerEnv.mk (.error "render boom") (.ok 0) (.ok ())).resultPdf = .error "render boom"
    ∧ (workerHandler ⟨"RESULTS", "student@example.com", "", "", none, "E1S1", "N200001"⟩
          ⟨.error "render boom", .ok 0, .ok ()⟩
        = (.error "render boom",
            [.logged (resultFailLog "student@example.com" "render boom")])
      ∧ (workerHandler ⟨"RESULTS", "student@example.com", "", "", none, "E1S1", "N200001"⟩
          ⟨.error "render boom", .ok 0, .ok ()⟩).2.countP isSendEv = 0) :=
  ⟨rfl, rfl,
    ((C3_report_job_effects ⟨"RESULTS", "student@example.com", "", "", none, "E1S1", "N200001"⟩
        ⟨.error "render boom", .ok 0, .ok ()⟩).1 rfl).1 "render boom" rfl⟩

/-- Claim C9: a dequeued job whose type is none of `EMAIL`, `RESULTS`,
`ATTENDANCE_REPORT` makes the handler return normally with no outbound
message — the job is acknowledged as completed although nothing was done. -/
theorem C9_unknown_type_noop : ∀ (job : JobData) (env : WorkerEnv),
    job.type ≠ "EMAIL" → job.type ≠ "RESULTS" → job.type ≠ "ATTENDANCE_REPORT" →
    workerHandler job env = (.ok (), []) := by
  intro job env h1 h2 h3
  simp [workerHandler, h1, h2, h3]

/-- Witness for C9: a job of type `"SMS"` completes with no effect. -/
theorem C9_unknown_type_noop_witness :
    ((JobData.mk "SMS" "r@example.com" "s" "b" none "E1S1" "N1").type ≠ "EMAIL"
      ∧ (JobData.mk "SMS" "r@example.com" "s" "b" none "E1S1" "N1").type ≠ "RESULTS"
      ∧ (JobData.mk "SMS" "r@example.com" "s" "b" none "E1S1" "N1").type ≠ "ATTENDANCE_REPORT")
    ∧ workerHandler ⟨"SMS", "r@example.com", "s", "b", none, "E1S1", "N1"⟩
        ⟨.ok 0, .ok 0, .ok ()⟩ = (.ok (), []) :=
  ⟨⟨by decide, by decide, by decide⟩,
    C9_unknown_type_noop ⟨"SMS", "r@example.com", "s", "b", none, "E1S1", "N1"⟩
      ⟨.ok 0, .ok 0, .ok ()⟩ (by decide) (by decide) (by decide)⟩

/-- Claim C10: an EMAIL job whose `html` field is present but empty is sent
with the default template wrapping `"<p>" + body + "</p>"` — the empty
string behaves exactly like an absent `html` field, not sent verbatim. -/
theorem C10_empty_html_default : ∀ (job : JobData) (env : WorkerEnv),
    job.type = "EMAIL" → job.html = some "" →
    workerHandler job env =
      (env.sendOutcome,
        [.sendReq
          { fromAddr := "\"UniZ Campus\" <noreplycampusschield@gmail.com>",
            toAddr := job.recipient,
            subject := job.subject,
            html := emailTemplate job.subject ("<p>" ++ job.body ++ "</p>"),
            attachments := [] }])
    ∧ workerHandler job env = workerHandler { job with html := none } env := by
  intro job env ht hh
  constructor
  · simp [workerHandler, ht, hh, sendMail, jsOrString]
  · simp [workerHandler, ht, hh, sendMail, jsOrString]

/-- Witness for C10: a concrete EMAIL job with empty `html` and body
`"Hello"` is sent with the default-template body. -/
theorem C10_empty_html_default_witness :
    (JobData.mk "EMAIL" "r@example.com" "Subj" "Hello" (some "") "" "").type = "EMAIL"
    ∧ (JobData.mk "EMAIL" "r@example.com" "Subj" "Hello" (some "") "" "").html = some ""
    ∧ (workerHandler ⟨"EMAIL", "r@example.com", "Subj", "Hello", some "", "", ""⟩
          ⟨.ok 0, .ok 0, .ok ()⟩ =
        ((WorkerEnv.mk (.ok 0) (.ok 0) (.ok ())).sendOutcome,
          [.sendReq
            { fromAddr := "\"UniZ Campus\" <noreplycampusschield@gmail.com>",
              toAddr := "r@example.com",
              subject := "Subj",
              html := emailTemplate "Subj" ("<p>" ++ "Hello" ++ "</p>"),
              attachments := [] }])
      ∧ workerHandler ⟨"EMAIL", "r@example.com", "Subj", "Hello", some "", "", ""⟩
          ⟨.ok 0, .ok 0, .ok ()⟩
        = workerHandler ⟨"EMAIL", "r@example.com", "Subj", "Hello", none, "", ""⟩
            ⟨.ok 0, .ok 0, .ok ()⟩) :=
  ⟨rfl, rfl,
    C10_empty_html_default ⟨"EMAIL", "r@example.com", "Subj", "Hello", some "", "", ""⟩
      ⟨.ok 0, .ok 0, .ok ()⟩ rfl rfl⟩

end UnizNotification
